import Mathlib

/-!
Verification of the deferred symbol-resolution layer of the `click` package
(`src/click/__init__.py`): the export registry (`_lazy_imports`,
`_deprecated_imports`, `__all__`) and the module-level resolver
(`__getattr__`), embedded shallowly.  Python dictionaries keyed by strings
become association lists, module globals become an explicit association
list threaded through the resolver, and the host environment
(`importlib.import_module`, `getattr` on a loaded module,
`importlib.metadata.version`) becomes an explicit `Host` structure so that
load failures and symbol-fetch failures are first-class `Except` values.
Observable side effects (deprecation warnings, unit loads) are recorded in
an event trace in the order the source performs them.
-/

set_option maxRecDepth 16384

namespace Click

/-- Python `dict` lookup on an association list (first binding wins; the
tables below have unique keys, so this agrees with `dict` semantics). -/
def dictFind {α : Type} (k : String) : List (String × α) → Option α
  | [] => none
  | (k2, v) :: rest => if k = k2 then some v else dictFind k rest

/-- Python `dict` assignment `d[k] = v`: overwrite the binding if present,
else append it. -/
def dictInsert {α : Type} (k : String) (v : α) : List (String × α) → List (String × α)
  | [] => [(k, v)]
  | (k2, v2) :: rest =>
    if k = k2 then (k, v) :: rest else (k2, v2) :: dictInsert k v rest

/-- Table `_lazy_imports` from `src/click/__init__.py`: attribute name ->
(module, name in module), in source order. -/
def _lazy_imports : List (String × String × String) :=
  [ ("Argument", ".core", "Argument"),
    ("Command", ".core", "Command"),
    ("CommandCollection", ".core", "CommandCollection"),
    ("Context", ".core", "Context"),
    ("Group", ".core", "Group"),
    ("Option", ".core", "Option"),
    ("Parameter", ".core", "Parameter"),
    ("argument", ".decorators", "argument"),
    ("command", ".decorators", "command"),
    ("confirmation_option", ".decorators", "confirmation_option"),
    ("group", ".decorators", "group"),
    ("help_option", ".decorators", "help_option"),
    ("make_pass_decorator", ".decorators", "make_pass_decorator"),
    ("option", ".decorators", "option"),
    ("pass_context", ".decorators", "pass_context"),
    ("pass_obj", ".decorators", "pass_obj"),
    ("password_option", ".decorators", "password_option"),
    ("version_option", ".decorators", "version_option"),
    ("Abort", ".exceptions", "Abort"),
    ("BadArgumentUsage", ".exceptions", "BadArgumentUsage"),
    ("BadOptionUsage", ".exceptions", "BadOptionUsage"),
    ("BadParameter", ".exceptions", "BadParameter"),
    ("ClickException", ".exceptions", "ClickException"),
    ("FileError", ".exceptions", "FileError"),
    ("MissingParameter", ".exceptions", "MissingParameter"),
    ("NoSuchOption", ".exceptions", "NoSuchOption"),
    ("UsageError", ".exceptions", "UsageError"),
    ("HelpFormatter", ".formatting", "HelpFormatter"),
    ("wrap_text", ".formatting", "wrap_text"),
    ("get_current_context", ".globals", "get_current_context"),
    ("clear", ".termui", "clear"),
    ("confirm", ".termui", "confirm"),
    ("echo_via_pager", ".termui", "echo_via_pager"),
    ("edit", ".termui", "edit"),
    ("getchar", ".termui", "getchar"),
    ("launch", ".termui", "launch"),
    ("pause", ".termui", "pause"),
    ("progressbar", ".termui", "progressbar"),
    ("prompt", ".termui", "prompt"),
    ("secho", ".termui", "secho"),
    ("style", ".termui", "style"),
    ("unstyle", ".termui", "unstyle"),
    ("BOOL", ".types", "BOOL"),
    ("Choice", ".types", "Choice"),
    ("DateTime", ".types", "DateTime"),
    ("File", ".types", "File"),
    ("FLOAT", ".types", "FLOAT"),
    ("FloatRange", ".types", "FloatRange"),
    ("INT", ".types", "INT"),
    ("IntRange", ".types", "IntRange"),
    ("ParamType", ".types", "ParamType"),
    ("Path", ".types", "Path"),
    ("STRING", ".types", "STRING"),
    ("Tuple", ".types", "Tuple"),
    ("UNPROCESSED", ".types", "UNPROCESSED"),
    ("UUID", ".types", "UUID"),
    ("echo", ".utils", "echo"),
    ("format_filename", ".utils", "format_filename"),
    ("get_app_dir", ".utils", "get_app_dir"),
    ("get_binary_stream", ".utils", "get_binary_stream"),
    ("get_text_stream", ".utils", "get_text_stream"),
    ("open_file", ".utils", "open_file") ]

/-- Table `_deprecated_imports` from `src/click/__init__.py`: attribute
name -> (module, actual name in module, warning message). -/
def _deprecated_imports : List (String × String × String × String) :=
  [ ("BaseCommand",
     (".core", "_BaseCommand",
      "'BaseCommand' is deprecated and will be removed in Click 9.0. Use 'Command' instead.")),
    ("MultiCommand",
     (".core", "_MultiCommand",
      "'MultiCommand' is deprecated and will be removed in Click 9.0. Use 'Group' instead.")),
    ("OptionParser",
     (".parser", "_OptionParser",
      "'OptionParser' is deprecated and will be removed in Click 9.0. The old parser is available in 'optparse'.")) ]

/-- List `__all__` from `src/click/__init__.py`, in source order. -/
def __all__ : List String :=
  [ "Argument", "Command", "CommandCollection", "Context", "Group",
    "Option", "Parameter",
    "argument", "command", "confirmation_option", "group", "help_option",
    "make_pass_decorator", "option", "pass_context", "pass_obj",
    "password_option", "version_option",
    "Abort", "BadArgumentUsage", "BadOptionUsage", "BadParameter",
    "ClickException", "FileError", "MissingParameter", "NoSuchOption",
    "UsageError",
    "HelpFormatter", "wrap_text",
    "get_current_context",
    "clear", "confirm", "echo_via_pager", "edit", "getchar", "launch",
    "pause", "progressbar", "prompt", "secho", "style", "unstyle",
    "BOOL", "Choice", "DateTime", "File", "FLOAT", "FloatRange", "INT",
    "IntRange", "ParamType", "Path", "STRING", "Tuple", "UNPROCESSED",
    "UUID",
    "echo", "format_filename", "get_app_dir", "get_binary_stream",
    "get_text_stream", "open_file" ]

/-- Value of `__package__` in `click/__init__.py`: the anchor passed to
the unit-loading facility for relative resolution. -/
def __package__ : String := "click"

/-- The deprecation message of the `__version__` special case,
verbatim from the source. -/
def version_warning : String :=
  "The '__version__' attribute is deprecated and will be removed in Click 9.1. Use feature detection or 'importlib.metadata.version(\"click\")' instead."

/-- Errors a resolution can surface: a failure raised by the host loading
facility (propagated unchanged), or an `AttributeError` carrying a
message. -/
inductive PyError where
  | loadFailure (msg : String)
  | attributeError (msg : String)
deriving Repr, DecidableEq

/-- The host environment the resolver delegates to: the unit-loading
facility (`importlib.import_module`, taking a module path and the anchor
package), symbol fetch on a loaded module (`getattr`), and the external
metadata facility (`importlib.metadata.version`).  `V` is the type of
attribute values, `M` the type of loaded modules. -/
structure Host (V M : Type) where
  load_module : String → String → Except PyError M
  module_getattr : M → String → Except PyError V
  metadata_version : String → V

/-- Observable side effects of a resolution, in the order the source
performs them: a `warnings.warn(message, category, stacklevel)` call, or
an invocation of the unit-loading facility on (module, anchor package). -/
inductive Event where
  | warn (message : String) (category : String) (stacklevel : Nat)
  | load (module_name : String) (package : String)
deriving Repr, DecidableEq

/-- Result of one attribute access: the module globals afterwards (the
ResolutionCache), the trace of side effects, and the returned value or
raised error. -/
structure Outcome (V : Type) where
  globals : List (String × V)
  trace : List Event
  result : Except PyError V
deriving Repr

/-- The resolver `__getattr__` from `src/click/__init__.py`, parametrised by the two
registry tables (the source closes over the module-level tables; the
parameters let theorems state which paths consult the registry).  Mirrors
the source line by line: lazy table first (load, fetch, cache in globals,
return), then deprecated table (warn with stacklevel 2, load, fetch,
return without caching), then the `__version__` special case (warn, query
metadata, return without caching), else `raise AttributeError(name)`. -/
def __getattr__ {V M : Type} (lazyTab : List (String × String × String))
    (depTab : List (String × String × String × String))
    (host : Host V M) (globals : List (String × V)) (name : String) :
    Outcome V :=
  match dictFind name lazyTab with
  | some (module_name, attr_name) =>
    match host.load_module module_name __package__ with
    | .error e => ⟨globals, [.load module_name __package__], .error e⟩
    | .ok m =>
      match host.module_getattr m attr_name with
      | .error e => ⟨globals, [.load module_name __package__], .error e⟩
      | .ok value =>
        ⟨dictInsert name value globals, [.load module_name __package__], .ok value⟩
  | none =>
    match dictFind name depTab with
    | some (module_name, attr_name, warning_msg) =>
      match host.load_module module_name __package__ with
      | .error e =>
        ⟨globals, [.warn warning_msg "DeprecationWarning" 2,
                   .load module_name __package__], .error e⟩
      | .ok m =>
        match host.module_getattr m attr_name with
        | .error e =>
          ⟨globals, [.warn warning_msg "DeprecationWarning" 2,
                     .load module_name __package__], .error e⟩
        | .ok value =>
          ⟨globals, [.warn warning_msg "DeprecationWarning" 2,
                     .load module_name __package__], .ok value⟩
    | none =>
      if name = "__version__" then
        ⟨globals, [.warn version_warning "DeprecationWarning" 2],
         .ok (host.metadata_version "click")⟩
      else
        ⟨globals, [], .error (.attributeError name)⟩

/-- Module attribute access against explicit tables: Python consults the
module globals first and calls `__getattr__` only when the name is absent
there — this is exactly how the cache-hit path bypasses the resolver. -/
def attr_access {V M : Type} (lazyTab : List (String × String × String))
    (depTab : List (String × String × String × String))
    (host : Host V M) (globals : List (String × V)) (name : String) :
    Outcome V :=
  match dictFind name globals with
  | some v => ⟨globals, [], .ok v⟩
  | none => __getattr__ lazyTab depTab host globals name

/-- Attribute access on the `click` package: `attr_access` instantiated
with the source's registry tables. -/
def click_getattr {V M : Type} (host : Host V M)
    (globals : List (String × V)) (name : String) : Outcome V :=
  attr_access _lazy_imports _deprecated_imports host globals name

/-- Substring containment, for claims about warning/error message text. -/
def strContains (s pat : String) : Prop := pat.toList <:+: s.toList

instance (s pat : String) : Decidable (strContains s pat) :=
  inferInstanceAs (Decidable (pat.toList <:+: s.toList))

/-- A concrete host for evaluating the resolver on sample inputs: modules
are represented by their absolute path, attribute values by strings. -/
def demoHost : Host String String where
  load_module := fun module_name package => Except.ok (package ++ module_name)
  module_getattr := fun m attr => Except.ok (m ++ ":" ++ attr)
  metadata_version := fun p => p ++ " 8.2.1"

/-- A host whose unit-loading facility always fails, for exercising the
failure-propagation path. -/
def failingHost : Host String String where
  load_module := fun module_name _ => Except.error (PyError.loadFailure module_name)
  module_getattr := fun m attr => Except.ok (m ++ ":" ++ attr)
  metadata_version := fun p => p

theorem dictFind_some_mem {α : Type} {k : String} {l : List (String × α)} {v : α}
    (h : dictFind k l = some v) : k ∈ l.map Prod.fst := by
  induction l with
  | nil => simp [dictFind] at h
  | cons p rest ih =>
    obtain ⟨k2, v2⟩ := p
    simp only [dictFind] at h
    by_cases hk : k = k2
    · simp [hk]
    · simp [hk] at h
      simp [ih h]

theorem dictFind_insert_self {α : Type} (k : String) (v : α) (l : List (String × α)) :
    dictFind k (dictInsert k v l) = some v := by
  induction l with
  | nil => simp [dictInsert, dictFind]
  | cons p rest ih =>
    obtain ⟨k2, v2⟩ := p
    by_cases hk : k = k2
    · simp [dictInsert, hk, dictFind]
    · simp [dictInsert, hk, dictFind, ih]

/-- Disjointness of the two registries, on the level of lookups: a name
bound in the deprecated table is unbound in the lazy table, so the
resolver's deprecated branch is reachable for every deprecated name. -/
theorem dep_key_not_lazy {x : String × String × String} {n : String}
    (h : dictFind n _deprecated_imports = some x) :
    dictFind n _lazy_imports = none := by
  have hm := dictFind_some_mem h
  have hcase : n = "BaseCommand" ∨ n = "MultiCommand" ∨ n = "OptionParser" := by
    simpa [_deprecated_imports] using hm
  rcases hcase with h1 | h1 | h1 <;> subst h1 <;> decide

/-- C1: for every name bound in the live-export table `_lazy_imports`,
resolving it loads the entry's unit through the host's loading facility
with the package's own identity (`__package__`) as the relative anchor,
fetches the entry's symbol from the loaded unit, stores the value in the
module globals (the ResolutionCache) under the name, and returns that
value. -/
theorem live_export_resolution {V M : Type} (host : Host V M)
    (g : List (String × V)) (n module_name attr_name : String) (m : M) (v : V)
    (hn : dictFind n _lazy_imports = some (module_name, attr_name))
    (hg : dictFind n g = none)
    (hm : host.load_module module_name __package__ = Except.ok m)
    (hv : host.module_getattr m attr_name = Except.ok v) :
    (click_getattr host g n).result = Except.ok v ∧
    (click_getattr host g n).trace = [Event.load module_name __package__] ∧
    dictFind n (click_getattr host g n).globals = some v := by
  unfold click_getattr attr_access __getattr__
  simp only [hg, hn, hm, hv]
  exact ⟨trivial, trivial, dictFind_insert_self n v g⟩

theorem live_export_resolution_witness :
    (click_getattr demoHost [] "Command").result = Except.ok "click.core:Command" ∧
    (click_getattr demoHost [] "Command").trace = [Event.load ".core" __package__] ∧
    dictFind "Command" (click_getattr demoHost [] "Command").globals =
      some "click.core:Command" :=
  live_export_resolution demoHost [] "Command" ".core" "Command" "click.core"
    "click.core:Command" (by decide) rfl rfl rfl

/-- C2: once the ResolutionCache (module globals) holds a value for a
live-export name, a subsequent access returns exactly that value with an
empty effect trace (no loading), and the outcome on the cache-hit path is
the same for every pair of registry tables — the registry is not
re-consulted. -/
theorem cache_hit_identity {V M : Type} (host : Host V M)
    (g : List (String × V)) (n module_name attr_name : String) (v : V)
    (_hn : dictFind n _lazy_imports = some (module_name, attr_name))
    (hv : dictFind n g = some v) :
    click_getattr host g n = ⟨g, [], Except.ok v⟩ ∧
    ∀ (lt : List (String × String × String))
      (dt : List (String × String × String × String)),
      attr_access lt dt host g n = ⟨g, [], Except.ok v⟩ := by
  constructor
  · unfold click_getattr attr_access
    rw [hv]
  · intro lt dt
    unfold attr_access
    rw [hv]

theorem cache_hit_identity_witness :
    click_getattr demoHost [("Command", "cachedValue")] "Command" =
      ⟨[("Command", "cachedValue")], [], Except.ok "cachedValue"⟩ :=
  (cache_hit_identity demoHost [("Command", "cachedValue")] "Command" ".core"
    "Command" "cachedValue" (by decide) rfl).1

/-- C4: the export list `__all__` is, as a set, exactly the key set of the
live-export table `_lazy_imports` (in fact the two coincide as ordered
lists). -/
theorem all_matches_lazy_keys :
    ∀ n : String, n ∈ __all__ ↔ n ∈ _lazy_imports.map Prod.fst := by
  intro n
  have h : __all__ = _lazy_imports.map Prod.fst := by rfl
  rw [h]

/-- C5: resolving a name that is cached nowhere, is a key of neither
registry table, and is not the special case `__version__`, raises
`AttributeError` carrying that name (so the message contains the name) and
emits no warning and no load. -/
theorem unknown_name_raises {V M : Type} (host : Host V M)
    (g : List (String × V)) (n : String)
    (hg : dictFind n g = none)
    (h1 : dictFind n _lazy_imports = none)
    (h2 : dictFind n _deprecated_imports = none)
    (h3 : n ≠ "__version__") :
    (click_getattr host g n).result = Except.error (PyError.attributeError n) ∧
    (click_getattr host g n).trace = [] ∧
    strContains n n := by
  unfold click_getattr attr_access __getattr__
  simp only [hg, h1, h2, if_neg h3]
  exact ⟨trivial, trivial, List.infix_rfl⟩

theorem unknown_name_raises_witness :
    (click_getattr demoHost ([] : List (String × String)) "nonexistent_attribute").result =
      Except.error (PyError.attributeError "nonexistent_attribute") ∧
    (click_getattr demoHost ([] : List (String × String)) "nonexistent_attribute").trace = [] ∧
    strContains "nonexistent_attribute" "nonexistent_attribute" :=
  unknown_name_raises demoHost [] "nonexistent_attribute" rfl (by decide)
    (by decide) (by decide)

/-- C6: the key lists of the live-export table and the deprecated table
each contain no duplicate, and no name is a key of both tables. -/
theorem registry_disjoint :
    (_lazy_imports.map Prod.fst).Nodup ∧
    (_deprecated_imports.map Prod.fst).Nodup ∧
    ∀ n ∈ _deprecated_imports.map Prod.fst, n ∉ _lazy_imports.map Prod.fst := by
  refine ⟨by decide, by decide, by decide⟩

theorem registry_disjoint_witness :
    "BaseCommand" ∉ _lazy_imports.map Prod.fst :=
  registry_disjoint.2.2 "BaseCommand" (by decide)

/-- The deprecation message of the `BaseCommand` entry, verbatim, for
instantiating theorems at that entry. -/
def baseCommandMsg : String :=
  "'BaseCommand' is deprecated and will be removed in Click 9.0. Use 'Command' instead."

/-- Text facts about the three deprecation messages: each contains the
word "deprecated", and each names its replacement. -/
theorem dep_message_facts {n module_name attr_name warning_msg : String}
    (hn : dictFind n _deprecated_imports = some (module_name, attr_name, warning_msg)) :
    strContains warning_msg "deprecated" ∧
    (n = "BaseCommand" → strContains warning_msg "'Command'") ∧
    (n = "MultiCommand" → strContains warning_msg "'Group'") ∧
    (n = "OptionParser" → strContains warning_msg "'optparse'") := by
  have hm := dictFind_some_mem hn
  have hcase : n = "BaseCommand" ∨ n = "MultiCommand" ∨ n = "OptionParser" := by
    simpa [_deprecated_imports] using hm
  rcases hcase with h1 | h1 | h1 <;> subst h1 <;>
    simp [_deprecated_imports, dictFind] at hn <;>
    obtain ⟨h2, h3, rfl⟩ := hn <;> decide

/-- C3: resolving a name bound in the deprecated table emits exactly one
deprecation warning per access — carrying the entry's message, which
contains "deprecated" and the replacement name — then loads the entry's
unit, returns the fetched symbol, and leaves the module globals (the
ResolutionCache) unchanged, so a repeated access re-emits the warning. -/
theorem deprecated_access_warns {V M : Type} (host : Host V M)
    (g : List (String × V)) (n module_name attr_name warning_msg : String)
    (m : M) (v : V)
    (hn : dictFind n _deprecated_imports = some (module_name, attr_name, warning_msg))
    (hg : dictFind n g = none)
    (hm : host.load_module module_name __package__ = Except.ok m)
    (hv : host.module_getattr m attr_name = Except.ok v) :
    (click_getattr host g n).trace =
      [Event.warn warning_msg "DeprecationWarning" 2,
       Event.load module_name __package__] ∧
    (click_getattr host g n).result = Except.ok v ∧
    (click_getattr host g n).globals = g ∧
    (click_getattr host (click_getattr host g n).globals n).trace =
      [Event.warn warning_msg "DeprecationWarning" 2,
       Event.load module_name __package__] ∧
    strContains warning_msg "deprecated" ∧
    (n = "BaseCommand" → strContains warning_msg "'Command'") ∧
    (n = "MultiCommand" → strContains warning_msg "'Group'") ∧
    (n = "OptionParser" → strContains warning_msg "'optparse'") := by
  have h0 : click_getattr host g n =
      ⟨g, [Event.warn warning_msg "DeprecationWarning" 2,
           Event.load module_name __package__], Except.ok v⟩ := by
    unfold click_getattr attr_access __getattr__
    simp only [hg, dep_key_not_lazy hn, hn, hm, hv]
  obtain ⟨hd, hr⟩ := dep_message_facts hn
  exact ⟨by rw [h0], by rw [h0], by rw [h0], by simp only [h0], hd, hr.1, hr.2.1, hr.2.2⟩

theorem deprecated_access_warns_witness :
    (click_getattr demoHost [] "BaseCommand").trace =
      [Event.warn baseCommandMsg "DeprecationWarning" 2,
       Event.load ".core" __package__] ∧
    (click_getattr demoHost [] "BaseCommand").result =
      Except.ok "click.core:_BaseCommand" ∧
    (click_getattr demoHost [] "BaseCommand").globals = [] ∧
    (click_getattr demoHost (click_getattr demoHost [] "BaseCommand").globals "BaseCommand").trace =
      [Event.warn baseCommandMsg "DeprecationWarning" 2,
       Event.load ".core" __package__] ∧
    strContains baseCommandMsg "deprecated" ∧
    ("BaseCommand" = "BaseCommand" → strContains baseCommandMsg "'Command'") ∧
    ("BaseCommand" = "MultiCommand" → strContains baseCommandMsg "'Group'") ∧
    ("BaseCommand" = "OptionParser" → strContains baseCommandMsg "'optparse'") :=
  deprecated_access_warns demoHost [] "BaseCommand" ".core" "_BaseCommand"
    baseCommandMsg "click.core" "click.core:_BaseCommand" (by decide) rfl rfl rfl

/-- C7: resolving the special-cased name `__version__` (a key of neither
registry) emits a deprecation warning recommending the metadata facility,
returns the value obtained by querying that facility for package "click",
and leaves the module globals unchanged, so a repeated access re-emits the
warning and re-queries. -/
theorem version_special_case {V M : Type} (host : Host V M)
    (g : List (String × V))
    (hg : dictFind "__version__" g = none) :
    (click_getattr host g "__version__").result =
      Except.ok (host.metadata_version "click") ∧
    (click_getattr host g "__version__").trace =
      [Event.warn version_warning "DeprecationWarning" 2] ∧
    (click_getattr host g "__version__").globals = g ∧
    (click_getattr host (click_getattr host g "__version__").globals "__version__").result =
      Except.ok (host.metadata_version "click") ∧
    strContains version_warning "deprecated" ∧
    strContains version_warning "importlib.metadata.version" ∧
    dictFind "__version__" _lazy_imports = none ∧
    dictFind "__version__" _deprecated_imports = none := by
  have h0 : click_getattr host g "__version__" =
      ⟨g, [Event.warn version_warning "DeprecationWarning" 2],
       Except.ok (host.metadata_version "click")⟩ := by
    unfold click_getattr attr_access __getattr__
    simp only [hg]
    rfl
  exact ⟨by rw [h0], by rw [h0], by rw [h0], by simp only [h0], by decide, by decide,
    by decide, by decide⟩

theorem version_special_case_witness :
    (click_getattr demoHost ([] : List (String × String)) "__version__").result =
      Except.ok (demoHost.metadata_version "click") ∧
    (click_getattr demoHost ([] : List (String × String)) "__version__").trace =
      [Event.warn version_warning "DeprecationWarning" 2] ∧
    (click_getattr demoHost ([] : List (String × String)) "__version__").globals = [] ∧
    (click_getattr demoHost (click_getattr demoHost ([] : List (String × String)) "__version__").globals "__version__").result =
      Except.ok (demoHost.metadata_version "click") ∧
    strContains version_warning "deprecated" ∧
    strContains version_warning "importlib.metadata.version" ∧
    dictFind "__version__" _lazy_imports = none ∧
    dictFind "__version__" _deprecated_imports = none :=
  version_special_case demoHost [] rfl

/-- C8: when the host's unit-loading facility fails for the unit of a name
bound in either registry table, the resolver surfaces that very error
unchanged — no retry, no translation, no fallback value — and the module
globals (the ResolutionCache) are left unchanged. -/
theorem load_failure_propagates {V M : Type} (host : Host V M)
    (g : List (String × V)) (n module_name attr_name : String) (e : PyError)
    (h : dictFind n _lazy_imports = some (module_name, attr_name) ∨
         ∃ warning_msg, dictFind n _deprecated_imports =
           some (module_name, attr_name, warning_msg))
    (hg : dictFind n g = none)
    (he : host.load_module module_name __package__ = Except.error e) :
    (click_getattr host g n).result = Except.error e ∧
    (click_getattr host g n).globals = g := by
  rcases h with hn | ⟨warning_msg, hn⟩
  · unfold click_getattr attr_access __getattr__
    simp only [hg, hn, he]
    exact ⟨trivial, trivial⟩
  · unfold click_getattr attr_access __getattr__
    simp only [hg, dep_key_not_lazy hn, hn, he]
    exact ⟨trivial, trivial⟩

theorem load_failure_propagates_witness :
    (click_getattr failingHost ([] : List (String × String)) "Command").result =
      Except.error (PyError.loadFailure ".core") ∧
    (click_getattr failingHost ([] : List (String × String)) "Command").globals = [] :=
  load_failure_propagates failingHost [] "Command" ".core" "Command"
    (PyError.loadFailure ".core") (Or.inl (by decide)) rfl rfl

/-- C9: every warning the resolver ever emits — on the deprecated-table
path and on the `__version__` path — carries category
`DeprecationWarning` and stack level 2, pointing one frame above the
resolver, at the consumer's call site. -/
theorem warnings_stacklevel_two {V M : Type} (host : Host V M)
    (g : List (String × V)) (n message category : String) (stacklevel : Nat)
    (hw : Event.warn message category stacklevel ∈ (click_getattr host g n).trace) :
    stacklevel = 2 ∧ category = "DeprecationWarning" := by
  unfold click_getattr attr_access __getattr__ at hw
  repeat' split at hw
  all_goals simp_all

theorem warnings_stacklevel_two_witness :
    (2 : Nat) = 2 ∧ "DeprecationWarning" = "DeprecationWarning" :=
  warnings_stacklevel_two demoHost [] "BaseCommand" baseCommandMsg
    "DeprecationWarning" 2 (by decide)

/-- C10: on the deprecated path the warning is emitted before the
unit-loading facility is invoked: whatever the host does — load success,
fetch failure, or load failure — the effect trace is the warning followed
by the load, so a failed load still leaves the warning emitted. -/
theorem deprecated_warns_before_load {V M : Type} (host : Host V M)
    (g : List (String × V)) (n module_name attr_name warning_msg : String)
    (hn : dictFind n _deprecated_imports = some (module_name, attr_name, warning_msg))
    (hg : dictFind n g = none) :
    (click_getattr host g n).trace =
      [Event.warn warning_msg "DeprecationWarning" 2,
       Event.load module_name __package__] := by
  unfold click_getattr attr_access __getattr__
  simp only [hg, dep_key_not_lazy hn, hn]
  split
  · rfl
  · split <;> rfl

theorem deprecated_warns_before_load_witness :
    (click_getattr failingHost ([] : List (String × String)) "BaseCommand").trace =
      [Event.warn baseCommandMsg "DeprecationWarning" 2,
       Event.load ".core" __package__] :=
  deprecated_warns_before_load failingHost [] "BaseCommand" ".core"
    "_BaseCommand" baseCommandMsg (by decide) rfl

end Click
